import Mathlib

/-!
Verification development for the Unity plug-in build orchestrator (src/build.py).

The script resolves raw CLI token lists into per-axis selections (build actions,
platforms, plug-ins, clean actions), prepares build and test output directories,
and then drives a fixed phase sequence through external collaborators.  The
definitions below are a shallow embedding of the logic of Main (src/build.py
lines 89 to 348); each definition cites the lines it mirrors.  Filesystem state
is a list of existing directory paths, each path a list of components; printer
output is a list of structured messages; collaborator invocations are recorded
as a trace of calls.
-/

/-- A message emitted through the printer: warning, info, or status text.
Colour and bold formatting done by the Printer collaborator is dropped. -/
inductive Msg where
  | warning (text : String)
  | info (text : String)
  | status (text : String)
deriving DecidableEq

/-- A path in the model filesystem, as a list of components. -/
abbrev FsPath := List String

/-- The model filesystem: the list of directories that currently exist. -/
abbrev FS := List FsPath

/-- A recorded collaborator invocation. -/
inductive Call where
  | removeFolder (path : FsPath) (prompt : Bool)
  | mkdir (path : FsPath)
  | getToolchainVersions
  | promptForCodesignIdentity
  | scanForUnityInstallations
  | processNativeUnityPlugin (name : String)
  | validateProjectVersions
  | buildTests
  | generatePlugInPackages
deriving DecidableEq

/-- Modelled from the spec: token vocabulary of scripts/upi_cli_argument_options
(not under src); member names follow the spec, with sentinel strings all / none. -/
def PluginID.ACCESSIBILITY : String := "accessibility"

def PluginID.CORE : String := "core"

def PluginID.CORE_HAPTICS : String := "core_haptics"

def PluginID.GAME_CONTROLLER : String := "game_controller"

def PluginID.GAME_KIT : String := "game_kit"

def PluginID.PHASE : String := "phase"

def PluginID.ALL : String := "all"

def PlatformID.IOS : String := "ios"

def PlatformID.MACOS : String := "macos"

def PlatformID.TVOS : String := "tvos"

def PlatformID.ALL : String := "all"

def BuildActionID.BUILD : String := "build"

def BuildActionID.PACK : String := "pack"

def BuildActionID.NONE : String := "none"

def BuildActionID.ALL : String := "all"

def CleanActionID.NATIVE : String := "native"

def CleanActionID.PACKAGES : String := "packages"

def CleanActionID.TESTS : String := "tests"

def CleanActionID.NONE : String := "none"

def CleanActionID.ALL : String := "all"

/-- State of one selection axis during token resolution: the ordered
key-to-boolean mapping (a Python dict), the valid-token-found flag, and the
messages emitted so far. -/
structure AxisState where
  sel : List (String × Bool)
  valid : Bool
  msgs : List Msg
deriving DecidableEq

/-- Set one key of a selection mapping to true (dict assignment of True). -/
def setKey (sel : List (String × Bool)) (k : String) : List (String × Bool) :=
  sel.map fun p => if p.1 = k then (p.1, true) else p

/-- Set every key of a selection mapping to the given value. -/
def setAll (sel : List (String × Bool)) (b : Bool) : List (String × Bool) :=
  sel.map fun p => (p.1, b)

/-- Membership test of a key in a selection mapping (Python: token in dict). -/
def hasKey (sel : List (String × Bool)) (k : String) : Bool :=
  sel.any fun p => p.1 == k

/-- Read the boolean stored for a key (false if the key is absent). -/
def lookupSel (sel : List (String × Bool)) (k : String) : Bool :=
  ((sel.find? fun p => p.1 == k).map Prod.snd).getD false

/-- The key list of a selection mapping. -/
def keysOf (sel : List (String × Bool)) : List String :=
  sel.map Prod.fst

/-- Generic token-resolution loop shared by the four axes of Main.  Each axis
instantiates the sentinels, the check order and the warning text; an axis loop
walks the tokens left to right, sets matching keys true, stops at the first
sentinel (all sets every key true, none sets every key false), and warns on
unknown tokens.  allFirst selects whether the sentinel all is compared before
the key-membership test (platforms, lines 160 to 170) or after it (the other
three axes). -/
def axisLoop (allTok : String) (noneTok : Option String) (allFirst : Bool)
    (warnOf : String → Msg) : List String → AxisState → AxisState
  | [], st => st
  | tok :: rest, st =>
    if allFirst ∧ tok = allTok then
      { st with sel := setAll st.sel true, valid := true }
    else if hasKey st.sel tok then
      axisLoop allTok noneTok allFirst warnOf rest
        { st with sel := setKey st.sel tok, valid := true }
    else if tok = allTok then
      { st with sel := setAll st.sel true, valid := true }
    else if noneTok = some tok then
      { st with sel := setAll st.sel false, valid := true }
    else
      axisLoop allTok noneTok allFirst warnOf rest
        { st with msgs := st.msgs ++ [warnOf tok] }

/-- Warning of src/build.py line 144 (quotes around the token dropped). -/
def buildActionsWarn (a : String) : Msg :=
  Msg.warning ("Ignoring unknown build action " ++ a ++
    ". Valid options are build, pack, all (Default), or none")

/-- Initial build-action mapping, src/build.py lines 123 to 126. -/
def initBuildActions : List (String × Bool) :=
  [(BuildActionID.BUILD, false), (BuildActionID.PACK, false)]

/-- Initial axis state for the build-action loop (lines 123 to 128). -/
def initBuildActionsState : AxisState :=
  { sel := initBuildActions, valid := false, msgs := [] }

/-- Token loop of src/build.py lines 129 to 144: membership, then ALL (break),
then NONE (break), else warn. -/
def resolveBuildActionsLoop : List String → AxisState → AxisState :=
  axisLoop BuildActionID.ALL (some BuildActionID.NONE) false buildActionsWarn

/-- Warning of src/build.py line 147. -/
def buildActionsDefaultWarn : Msg :=
  Msg.warning "No valid build action passed to build script. Using default argument: all"

/-- Build-action axis resolution, src/build.py lines 123 to 149: run the token
loop, then if no valid token was found warn and set every action true. -/
def resolveBuildActions (tokens : List String) : AxisState :=
  let st := resolveBuildActionsLoop tokens initBuildActionsState
  if st.valid then st
  else { st with sel := setAll st.sel true, msgs := st.msgs ++ [buildActionsDefaultWarn] }

/-- Warning of src/build.py line 170. -/
def platformsWarn (p : String) : Msg :=
  Msg.warning ("Ignoring unknown platform " ++ p ++
    ". Valid options are ios, macos, tvos, or all (Default)")

/-- Initial platform mapping, src/build.py lines 153 to 157. -/
def initPlatforms : List (String × Bool) :=
  [(PlatformID.IOS, false), (PlatformID.MACOS, false), (PlatformID.TVOS, false)]

/-- Initial axis state for the platform loop (lines 153 to 159). -/
def initPlatformsState : AxisState :=
  { sel := initPlatforms, valid := false, msgs := [] }

/-- Token loop of src/build.py lines 160 to 170: ALL (break), then membership,
else warn; this axis has no NONE sentinel. -/
def resolvePlatformsLoop : List String → AxisState → AxisState :=
  axisLoop PlatformID.ALL none true platformsWarn

/-- Warning of src/build.py line 173. -/
def platformsDefaultWarn : Msg :=
  Msg.warning "No valid platform passed to build script. Using default argument: all"

/-- Platform axis resolution, src/build.py lines 153 to 175. -/
def resolvePlatforms (tokens : List String) : AxisState :=
  let st := resolvePlatformsLoop tokens initPlatformsState
  if st.valid then st
  else { st with sel := setAll st.sel true, msgs := st.msgs ++ [platformsDefaultWarn] }

/-- Warning of src/build.py line 201 (emitted there through utility.WarningMessage;
modelled from the spec as the same non-fatal reporter warning as the other axes,
since scripts/upi_utility is not under src). -/
def pluginsWarn (p : String) : Msg :=
  Msg.warning ("Ignoring unknown plug-in " ++ p ++
    ". Valid options are accessibility, core, core_haptics, game_controller, game_kit, phase, or all (Default)")

/-- Initial plug-in mapping, src/build.py lines 181 to 188. -/
def initPlugins : List (String × Bool) :=
  [(PluginID.ACCESSIBILITY, false), (PluginID.CORE, false), (PluginID.CORE_HAPTICS, false),
   (PluginID.GAME_CONTROLLER, false), (PluginID.GAME_KIT, false), (PluginID.PHASE, false)]

/-- Initial axis state for the plug-in loop (lines 181 to 190). -/
def initPluginsState : AxisState :=
  { sel := initPlugins, valid := false, msgs := [] }

/-- Token loop of src/build.py lines 191 to 201: membership, then ALL (break),
else warn; this axis has no NONE sentinel. -/
def resolvePluginsLoop : List String → AxisState → AxisState :=
  axisLoop PluginID.ALL none false pluginsWarn

/-- Messages of src/build.py lines 209 to 211, emitted when build tests are
requested but Apple.Core was not selected. -/
def forcedCoreMsgs : List Msg :=
  [Msg.warning "Build Tests(-t) set to true, but Apple.Core has not been selected to process.",
   Msg.info "All plug-ins are dependent upon Apple.Core, so it must be built for tests build successfully.",
   Msg.status "Adding Apple.Core to selected plug-ins."]

/-- Warning of src/build.py line 215. -/
def pluginsDefaultWarn : Msg :=
  Msg.warning "No valid plug-in passed to build script. Using default argument: all"

/-- Plug-in axis finalization, src/build.py lines 190 to 217: run the token
loop; then (lines 208 to 212) if build tests are requested and core is not
selected, force core true and emit the three messages; then (lines 214 to 217)
if no valid token was found warn and set every plug-in true.  The source
applies the core-forcing rule before the no-valid-token default. -/
def finalizePlugins (tokens : List String) (build_tests : Bool) : AxisState :=
  let st := resolvePluginsLoop tokens initPluginsState
  let st2 :=
    if build_tests && !(lookupSel st.sel PluginID.CORE) then
      { st with sel := setKey st.sel PluginID.CORE, msgs := st.msgs ++ forcedCoreMsgs }
    else st
  if st2.valid then st2
  else { st2 with sel := setAll st2.sel true, msgs := st2.msgs ++ [pluginsDefaultWarn] }

/-- Warning of src/build.py line 243 (quotes around the token dropped). -/
def cleanActionsWarn (a : String) : Msg :=
  Msg.warning ("Ignoring unknown clean action " ++ a ++
    ". Valid options are native, packages, tests, all, or none (Default)")

/-- Initial clean-action mapping, src/build.py lines 221 to 225. -/
def initCleanActions : List (String × Bool) :=
  [(CleanActionID.NATIVE, false), (CleanActionID.PACKAGES, false), (CleanActionID.TESTS, false)]

/-- Initial axis state for the clean-action loop (lines 221 to 227). -/
def initCleanActionsState : AxisState :=
  { sel := initCleanActions, valid := false, msgs := [] }

/-- Token loop of src/build.py lines 228 to 243: membership, then ALL (break),
then NONE (break), else warn. -/
def resolveCleanActionsLoop : List String → AxisState → AxisState :=
  axisLoop CleanActionID.ALL (some CleanActionID.NONE) false cleanActionsWarn

/-- Warning of src/build.py line 246. -/
def cleanActionsDefaultWarn : Msg :=
  Msg.warning "No valid clean action passed to build script. Using default argument: none"

/-- Clean-action axis resolution, src/build.py lines 221 to 248: run the token
loop, then if no valid token was found warn and set every action false. -/
def resolveCleanActions (tokens : List String) : AxisState :=
  let st := resolveCleanActionsLoop tokens initCleanActionsState
  if st.valid then st
  else { st with sel := setAll st.sel false, msgs := st.msgs ++ [cleanActionsDefaultWarn] }

/-- The slice of the build context touched around src/build.py lines 252 to 254:
the Unity installation root plus neighbouring plan fields, used to state that
the override touches nothing else. -/
structure BuildContextModel where
  unity_install_root : FsPath
  build_path : FsPath
  simulator_build : Bool
  plugins : List (String × Bool)
deriving DecidableEq

/-- Mirrors src/build.py lines 252 to 254: the supplied unity-installation-root
argument replaces the context default only when it is an existing directory;
no message is emitted either way. -/
def applyUnityInstallRootArg (fs : FS) (ctx : BuildContextModel) (argRoot : FsPath) :
    BuildContextModel × List Msg :=
  if argRoot ∈ fs then ({ ctx with unity_install_root := argRoot }, []) else (ctx, [])

/-- Model of pathlib mkdir with default arguments: fails if the directory
already exists or its parent is missing, otherwise adds it. -/
def mkdirFs (fs : FS) (p : FsPath) : Except String FS :=
  if p ∈ fs then Except.error "FileExistsError"
  else if p.dropLast ∈ fs then Except.ok (p :: fs)
  else Except.error "FileNotFoundError"

/-- Modelled from the spec: utility.RemoveFolder (scripts/upi_utility, not under
src) removes a folder recursively, prompting first unless forced; the model
takes confirmation as granted and drops the path with everything beneath it. -/
def removeFolderFs (fs : FS) (p : FsPath) : FS :=
  fs.filter fun q => !(p.isPrefixOf q)

/-- Mirrors src/build.py lines 279 to 288: for each immediate child of the
plug-in root that is a directory, if the conventional Unity project folder and
its TestPlayers subfolder both exist, remove the TestPlayers folder. -/
def cleanTestPlayers (force_clean : Bool) (plugin_root : FsPath) :
    List (String × Bool) → FS → FS × List Call
  | [], fs => (fs, [])
  | (name, isDir) :: rest, fs =>
    if !isDir then cleanTestPlayers force_clean plugin_root rest fs
    else
      let projectPath := plugin_root ++ [name, name ++ "_Unity"]
      let testPlayersPath := projectPath ++ ["TestPlayers"]
      if projectPath ∈ fs ∧ testPlayersPath ∈ fs then
        let step := cleanTestPlayers force_clean plugin_root rest (removeFolderFs fs testPlayersPath)
        (step.1, Call.removeFolder testPlayersPath (!force_clean) :: step.2)
      else cleanTestPlayers force_clean plugin_root rest fs

/-- The inputs of the path-configuration section of Main (src/build.py lines
258 to 298): resolved flags, the three path arguments, the context default test
root, the plug-in root listing, and the invocation time string. -/
structure PathConfig where
  clean_packages : Bool
  clean_tests : Bool
  action_build : Bool
  action_pack : Bool
  build_tests : Bool
  force_clean : Bool
  output_path : FsPath
  test_output_path : FsPath
  ctx_test_build_root : FsPath
  plugin_root : FsPath
  plugin_entries : List (String × Bool)
  time_string : String
deriving DecidableEq

/-- Result of path configuration: the filesystem, the recorded collaborator
calls, and the timestamped test output path when one was derived. -/
structure PathResult where
  fs : FS
  calls : List Call
  test_build_output_path : Option FsPath
deriving DecidableEq

/-- Mirrors src/build.py lines 261 to 298.  In order: remove the output path
when the packages clean action is selected and the path exists (lines 263 to
266); create the output path when build or pack is enabled and it is missing
(lines 268 to 272); when the tests clean action is selected and the test output
path exists, remove it and sweep per-plug-in TestPlayers folders (lines 275 to
288); when build tests are requested, check existence of the context default
test root, creating the test-output argument path when that check fails, then
create the timestamped folder joined onto the context default test root (lines
290 to 298 — the source mixes ctx_test_build_root and test_output_path exactly
this way).  Directory-creation failures are fatal. -/
def configureBuildPaths (c : PathConfig) (fs0 : FS) : Except String PathResult :=
  let step1 : FS × List Call :=
    if c.clean_packages ∧ c.output_path ∈ fs0 then
      (removeFolderFs fs0 c.output_path, [Call.removeFolder c.output_path (!c.force_clean)])
    else (fs0, [])
  let step2 : Except String (FS × List Call) :=
    if (c.action_build || c.action_pack) ∧ c.output_path ∉ step1.1 then
      match mkdirFs step1.1 c.output_path with
      | Except.error e => Except.error e
      | Except.ok fs2 => Except.ok (fs2, step1.2 ++ [Call.mkdir c.output_path])
    else Except.ok step1
  match step2 with
  | Except.error e => Except.error e
  | Except.ok s2 =>
    let step3 : FS × List Call :=
      if c.clean_tests ∧ c.test_output_path ∈ s2.1 then
        let swept := cleanTestPlayers c.force_clean c.plugin_root c.plugin_entries
          (removeFolderFs s2.1 c.test_output_path)
        (swept.1, s2.2 ++ [Call.removeFolder c.test_output_path (!c.force_clean)] ++ swept.2)
      else s2
    if c.build_tests then
      let step4 : Except String (FS × List Call) :=
        if c.ctx_test_build_root ∉ step3.1 then
          match mkdirFs step3.1 c.test_output_path with
          | Except.error e => Except.error e
          | Except.ok fs4 => Except.ok (fs4, step3.2 ++ [Call.mkdir c.test_output_path])
        else Except.ok step3
      match step4 with
      | Except.error e => Except.error e
      | Except.ok s4 =>
        let stamped := c.ctx_test_build_root ++ ["TestBuild_" ++ c.time_string]
        match mkdirFs s4.1 stamped with
        | Except.error e => Except.error e
        | Except.ok fs5 =>
          Except.ok { fs := fs5, calls := s4.2 ++ [Call.mkdir stamped],
                      test_build_output_path := some stamped }
    else Except.ok { fs := step3.1, calls := step3.2, test_build_output_path := none }

/-- Mirrors src/build.py lines 323 to 332: collect the plug-in root children
that are directories, inserting the one named Apple.Core at the front of the
list built so far and appending every other one at the back. -/
def orderPluginsLoop : List (String × Bool) → List String → List String
  | [], acc => acc
  | (name, isDir) :: rest, acc =>
    if !isDir then orderPluginsLoop rest acc
    else if name = "Apple.Core" then orderPluginsLoop rest (name :: acc)
    else orderPluginsLoop rest (acc ++ [name])

/-- The plug-in processing order computed at src/build.py lines 323 to 332. -/
def orderPlugins (entries : List (String × Bool)) : List String :=
  orderPluginsLoop entries []

/-- The directory children of the plug-in root, in scan order. -/
def dirNames (entries : List (String × Bool)) : List String :=
  (entries.filter fun e => e.2).map Prod.fst

/-- Mirrors src/build.py lines 302 to 346, as the trace of collaborator calls.
The plug-in manager object is bound only inside the build branch (line 318);
lines 342 and 346 reference it unconditionally, so when the build action is
disabled the source raises UnboundLocalError there, modelled as an error. -/
def runPhases (action_build action_pack build_tests skip_codesign : Bool)
    (codesign_identity : String) (entries : List (String × Bool)) :
    Except String (List Call) :=
  let managerDefined := action_build
  let buildPhaseCalls : List Call :=
    if action_build then
      [Call.getToolchainVersions]
      ++ (if skip_codesign then []
          else if codesign_identity.length > 0 then []
          else [Call.promptForCodesignIdentity])
      ++ [Call.scanForUnityInstallations]
      ++ (orderPlugins entries).map Call.processNativeUnityPlugin
      ++ [Call.validateProjectVersions]
    else []
  let afterTests : Except String (List Call) :=
    if build_tests then
      if managerDefined then Except.ok (buildPhaseCalls ++ [Call.buildTests])
      else Except.error "UnboundLocalError: unity_plugin_manager"
    else Except.ok buildPhaseCalls
  match afterTests with
  | Except.error e => Except.error e
  | Except.ok calls =>
    if action_pack then
      if managerDefined then Except.ok (calls ++ [Call.generatePlugInPackages])
      else Except.error "UnboundLocalError: unity_plugin_manager"
    else Except.ok calls

/-- True exactly on plug-in processing calls. -/
def isProcessCall : Call → Bool
  | Call.processNativeUnityPlugin _ => true
  | _ => false

/-- The plug-in processing calls of a phase run (empty on a crashed run). -/
def processPluginCalls : Except String (List Call) → List Call
  | Except.ok tr => tr.filter isProcessCall
  | Except.error _ => []

/-! ### Selection-mapping lemmas -/

theorem keysOf_setKey (s : List (String × Bool)) (k : String) :
    keysOf (setKey s k) = keysOf s := by
  induction s with
  | nil => rfl
  | cons p s ih =>
    by_cases h : p.1 = k <;> simp [setKey, keysOf, h] at ih ⊢ <;> simpa [setKey, keysOf] using ih

theorem keysOf_setAll (s : List (String × Bool)) (b : Bool) :
    keysOf (setAll s b) = keysOf s := by
  simp [keysOf, setAll, List.map_map, Function.comp]

theorem setAll_eq_keys (s : List (String × Bool)) (b : Bool) :
    setAll s b = (keysOf s).map fun k => (k, b) := by
  simp [keysOf, setAll, List.map_map, Function.comp]

theorem hasKey_eq_keys (s : List (String × Bool)) (k : String) :
    hasKey s k = (keysOf s).any fun x => x == k := by
  induction s with
  | nil => rfl
  | cons p s ih =>
    simp only [hasKey, keysOf, List.any_cons, List.map_cons] at *
    rw [ih]

theorem lookupSel_setKey_self (s : List (String × Bool)) (k : String)
    (h : hasKey s k = true) : lookupSel (setKey s k) k = true := by
  induction s with
  | nil => simp [hasKey] at h
  | cons p s ih =>
    by_cases hp : p.1 = k
    · simp [setKey, lookupSel, hp, List.find?]
    · have hp' : (p.1 == k) = false := by simpa using hp
      have h' : hasKey s k = true := by simpa [hasKey, hp'] using h
      simpa [setKey, lookupSel, hp, hp', List.find?] using ih h'

theorem lookupSel_setAll (s : List (String × Bool)) (b : Bool) (k : String)
    (h : hasKey s k = true) : lookupSel (setAll s b) k = b := by
  induction s with
  | nil => simp [hasKey] at h
  | cons p s ih =>
    by_cases hp : p.1 = k
    · simp [setAll, lookupSel, hp, List.find?]
    · have hp' : (p.1 == k) = false := by simpa using hp
      have h' : hasKey s k = true := by simpa [hasKey, hp'] using h
      simpa [setAll, lookupSel, hp', List.find?] using ih h'

/-! ### Generic axis-loop lemmas -/

theorem axisLoop_all_step (allTok : String) (noneTok : Option String) (allFirst : Bool)
    (warnOf : String → Msg) (rest : List String) (st : AxisState)
    (h : hasKey st.sel allTok = false) :
    axisLoop allTok noneTok allFirst warnOf (allTok :: rest) st
      = { st with sel := setAll st.sel true, valid := true } := by
  cases allFirst <;> simp [axisLoop, h]

theorem axisLoop_keys (allTok : String) (noneTok : Option String) (allFirst : Bool)
    (warnOf : String → Msg) (ts : List String) (st : AxisState) :
    keysOf (axisLoop allTok noneTok allFirst warnOf ts st).sel = keysOf st.sel := by
  induction ts generalizing st with
  | nil => rfl
  | cons t ts ih =>
    by_cases h3 : t = allTok
    · subst h3
      by_cases h2 : hasKey st.sel t = true
      · cases allFirst
        · simp [axisLoop, h2, ih, keysOf_setKey]
        · simp [axisLoop, keysOf_setAll]
      · rw [axisLoop_all_step t noneTok allFirst warnOf ts st (by simpa using h2)]
        simp [keysOf_setAll]
    · by_cases h2 : hasKey st.sel t = true
      · simp [axisLoop, h3, h2, ih, keysOf_setKey]
      · by_cases h4 : noneTok = some t
        · simp [axisLoop, h3, h2, h4, keysOf_setAll]
        · simp [axisLoop, h3, h2, h4, ih]

theorem axisLoop_append (allTok : String) (noneTok : Option String) (allFirst : Bool)
    (warnOf : String → Msg) (pre rest : List String) (st : AxisState)
    (h : ∀ t ∈ pre, t ≠ allTok ∧ noneTok ≠ some t) :
    axisLoop allTok noneTok allFirst warnOf (pre ++ rest) st
      = axisLoop allTok noneTok allFirst warnOf rest
          (axisLoop allTok noneTok allFirst warnOf pre st) := by
  induction pre generalizing st with
  | nil => rfl
  | cons t pre ih =>
    obtain ⟨ht, hn⟩ := h t (by simp)
    have h' : ∀ x ∈ pre, x ≠ allTok ∧ noneTok ≠ some x := fun x hx => h x (by simp [hx])
    have hn' : ¬ noneTok = some t := hn
    by_cases hk : hasKey st.sel t = true
    · simp [axisLoop, ht, hn', hk, ih _ h']
    · simp [axisLoop, ht, hn', hk, ih _ h']

theorem axisLoop_none_step (allTok : String) (allFirst : Bool)
    (warnOf : String → Msg) (n : String) (rest : List String) (st : AxisState)
    (hk : hasKey st.sel n = false) (hne : n ≠ allTok) :
    axisLoop allTok (some n) allFirst warnOf (n :: rest) st
      = { st with sel := setAll st.sel false, valid := true } := by
  simp [axisLoop, hk, hne]

theorem axisLoop_unknown_step (allTok : String) (noneTok : Option String) (allFirst : Bool)
    (warnOf : String → Msg) (t : String) (rest : List String) (st : AxisState)
    (hk : hasKey st.sel t = false) (ht : t ≠ allTok) (hn : noneTok ≠ some t) :
    axisLoop allTok noneTok allFirst warnOf (t :: rest) st
      = axisLoop allTok noneTok allFirst warnOf rest
          { st with msgs := st.msgs ++ [warnOf t] } := by
  have hn' : ¬ noneTok = some t := hn
  simp [axisLoop, hk, ht, hn']

theorem axisLoop_all_unknown (allTok : String) (noneTok : Option String) (allFirst : Bool)
    (warnOf : String → Msg) (ts : List String) (st : AxisState)
    (h : ∀ t ∈ ts, hasKey st.sel t = false ∧ t ≠ allTok ∧ noneTok ≠ some t) :
    axisLoop allTok noneTok allFirst warnOf ts st
      = { st with msgs := st.msgs ++ ts.map warnOf } := by
  induction ts generalizing st with
  | nil => simp [axisLoop]
  | cons t ts ih =>
    obtain ⟨hk, ht, hn⟩ := h t (by simp)
    have h' : ∀ x ∈ ts, hasKey st.sel x = false ∧ x ≠ allTok ∧ noneTok ≠ some x :=
      fun x hx => h x (by simp [hx])
    rw [axisLoop_unknown_step allTok noneTok allFirst warnOf t ts st hk ht hn]
    rw [ih { st with msgs := st.msgs ++ [warnOf t] } (by simpa using h')]
    simp

theorem hasKey_axisLoop (allTok : String) (noneTok : Option String) (allFirst : Bool)
    (warnOf : String → Msg) (ts : List String) (st : AxisState) (k : String) :
    hasKey (axisLoop allTok noneTok allFirst warnOf ts st).sel k = hasKey st.sel k := by
  rw [hasKey_eq_keys, hasKey_eq_keys, axisLoop_keys]

theorem axisLoop_sentinel_all (allTok : String) (noneTok : Option String) (allFirst : Bool)
    (warnOf : String → Msg) (pre post : List String) (st : AxisState)
    (hpre : ∀ t ∈ pre, t ≠ allTok ∧ noneTok ≠ some t)
    (hkey : hasKey st.sel allTok = false) :
    axisLoop allTok noneTok allFirst warnOf (pre ++ allTok :: post) st
      = { axisLoop allTok noneTok allFirst warnOf pre st with
          sel := (keysOf st.sel).map fun k => (k, true), valid := true } := by
  rw [axisLoop_append allTok noneTok allFirst warnOf pre (allTok :: post) st hpre]
  rw [axisLoop_all_step allTok noneTok allFirst warnOf post _
    (by rw [hasKey_axisLoop]; exact hkey)]
  rw [setAll_eq_keys, axisLoop_keys]

theorem axisLoop_sentinel_none (allTok : String) (allFirst : Bool)
    (warnOf : String → Msg) (n : String) (pre post : List String) (st : AxisState)
    (hpre : ∀ t ∈ pre, t ≠ allTok ∧ (some n : Option String) ≠ some t)
    (hkey : hasKey st.sel n = false) (hne : n ≠ allTok) :
    axisLoop allTok (some n) allFirst warnOf (pre ++ n :: post) st
      = { axisLoop allTok (some n) allFirst warnOf pre st with
          sel := (keysOf st.sel).map fun k => (k, false), valid := true } := by
  rw [axisLoop_append allTok (some n) allFirst warnOf pre (n :: post) st hpre]
  rw [axisLoop_none_step allTok allFirst warnOf n post _
    (by rw [hasKey_axisLoop]; exact hkey) hne]
  rw [setAll_eq_keys, axisLoop_keys]

theorem resolveBuildActions_of_valid (tokens : List String) (r : AxisState)
    (hr : resolveBuildActionsLoop tokens initBuildActionsState = r) (hv : r.valid = true) :
    resolveBuildActions tokens = r := by
  simp [resolveBuildActions, hr, hv]

theorem resolvePlatforms_of_valid (tokens : List String) (r : AxisState)
    (hr : resolvePlatformsLoop tokens initPlatformsState = r) (hv : r.valid = true) :
    resolvePlatforms tokens = r := by
  simp [resolvePlatforms, hr, hv]

theorem resolveCleanActions_of_valid (tokens : List String) (r : AxisState)
    (hr : resolveCleanActionsLoop tokens initCleanActionsState = r) (hv : r.valid = true) :
    resolveCleanActions tokens = r := by
  simp [resolveCleanActions, hr, hv]

theorem finalizePlugins_of_valid_core (tokens : List String) (bt : Bool) (r : AxisState)
    (hr : resolvePluginsLoop tokens initPluginsState = r) (hv : r.valid = true)
    (hc : lookupSel r.sel PluginID.CORE = true) :
    finalizePlugins tokens bt = r := by
  cases bt <;> simp [finalizePlugins, hr, hv, hc]

/-! ### Plug-in ordering lemmas -/

theorem dirNames_cons_dir (name : String) (rest : List (String × Bool)) :
    dirNames ((name, true) :: rest) = name :: dirNames rest := by
  simp [dirNames]

theorem dirNames_cons_file (name : String) (rest : List (String × Bool)) :
    dirNames ((name, false) :: rest) = dirNames rest := by
  simp [dirNames]

theorem orderPluginsLoop_filter (entries : List (String × Bool)) (acc : List String) :
    (orderPluginsLoop entries acc).filter (fun n => n != "Apple.Core")
      = acc.filter (fun n => n != "Apple.Core")
        ++ (dirNames entries).filter (fun n => n != "Apple.Core") := by
  induction entries generalizing acc with
  | nil => simp [orderPluginsLoop, dirNames]
  | cons e rest ih =>
    obtain ⟨name, isDir⟩ := e
    cases isDir
    · simp [orderPluginsLoop, dirNames_cons_file, ih]
    · by_cases hc : name = "Apple.Core"
      · subst hc
        rw [orderPluginsLoop, if_neg (by simp), if_pos rfl, ih]
        simp [dirNames_cons_dir]
      · have hb : (name != "Apple.Core") = true := by simpa using hc
        rw [orderPluginsLoop, if_neg (by simp), if_neg hc, ih, List.filter_append]
        simp [dirNames_cons_dir, hb]

theorem orderPluginsLoop_head_noCore (entries : List (String × Bool)) (acc : List String)
    (h : "Apple.Core" ∉ dirNames entries) (hacc : acc ≠ []) :
    (orderPluginsLoop entries acc).head? = acc.head? := by
  induction entries generalizing acc with
  | nil => simp [orderPluginsLoop]
  | cons e rest ih =>
    obtain ⟨name, isDir⟩ := e
    cases isDir
    · rw [orderPluginsLoop]
      exact ih acc (by simpa [dirNames_cons_file] using h) hacc
    · have hname : name ≠ "Apple.Core" := by
        intro hc
        exact h (by simp [dirNames_cons_dir, hc])
      have hrest : "Apple.Core" ∉ dirNames rest := by
        intro hc
        exact h (by simp [dirNames_cons_dir, hc])
      rw [orderPluginsLoop, if_neg (by simp), if_neg hname]
      rw [ih (acc ++ [name]) hrest (by simp)]
      obtain ⟨a, as, rfl⟩ := List.exists_cons_of_ne_nil hacc
      simp

theorem orderPluginsLoop_head_core (entries : List (String × Bool)) (acc : List String)
    (h : "Apple.Core" ∈ dirNames entries) :
    (orderPluginsLoop entries acc).head? = some "Apple.Core" := by
  induction entries generalizing acc with
  | nil => simp [dirNames] at h
  | cons e rest ih =>
    obtain ⟨name, isDir⟩ := e
    cases isDir
    · rw [orderPluginsLoop]
      exact ih acc (by simpa [dirNames_cons_file] using h)
    · by_cases hc : name = "Apple.Core"
      · subst hc
        rw [orderPluginsLoop, if_neg (by simp), if_pos rfl]
        by_cases hr : "Apple.Core" ∈ dirNames rest
        · exact ih _ hr
        · rw [orderPluginsLoop_head_noCore rest _ hr (by simp)]
          rfl
      · have hr : "Apple.Core" ∈ dirNames rest := by
          rcases (by simpa [dirNames_cons_dir] using h : "Apple.Core" = name ∨ "Apple.Core" ∈ dirNames rest) with hx | hx
          · exact absurd hx.symm hc
          · exact hx
        rw [orderPluginsLoop, if_neg (by simp), if_neg hc]
        exact ih _ hr

theorem filter_isProcess_map (l : List String) :
    (l.map Call.processNativeUnityPlugin).filter isProcessCall
      = l.map Call.processNativeUnityPlugin := by
  induction l with
  | nil => rfl
  | cons a l ih => simp [isProcessCall, ih]

/-! ### Claim theorems -/

/-- Claim C1 (code bug): the claim states that with buildTests set the
BuildTests collaborator is invoked regardless of whether the build action ran,
and that with the pack action enabled GeneratePlugInPackages is invoked
regardless of the build phase.  The source binds unity_plugin_manager only
inside the build branch, so when the build action is disabled the run crashes
with UnboundLocalError before either collaborator is invoked; with the build
action enabled both phases do run.  The first two conjuncts evaluate the phase
sequencer at pack-without-build and tests-without-build, the third shows the
full trace when the build action is enabled. -/
theorem packAndTests_crash_without_build :
    runPhases false true false false "" []
      = Except.error "UnboundLocalError: unity_plugin_manager"
    ∧ runPhases false false true false "" []
      = Except.error "UnboundLocalError: unity_plugin_manager"
    ∧ runPhases true true true false "id" [("Apple.Core", true)]
      = Except.ok [Call.getToolchainVersions, Call.scanForUnityInstallations,
          Call.processNativeUnityPlugin "Apple.Core", Call.validateProjectVersions,
          Call.buildTests, Call.generatePlugInPackages] :=
  ⟨rfl, rfl, rfl⟩

/-- Claim C3 (code bug): the claim states that with buildTests set the test
output root held by the plan, including a user-supplied test-output argument,
is created if missing and receives the timestamped TestBuild subdirectory.  In
the source the existence check and the timestamped join both use the context
default test root while only the mkdir of the root uses the argument path, so
with a custom test-output argument the TestBuild folder is created under the
default root and the custom root stays empty; a collision on that default
timestamped path is a fatal error.  Evaluated at a custom test-output argument
with both roots existing. -/
theorem testBuildDir_created_under_default_root :
    configureBuildPaths
      { clean_packages := false, clean_tests := false, action_build := false,
        action_pack := false, build_tests := true, force_clean := false,
        output_path := ["out"], test_output_path := ["custom"],
        ctx_test_build_root := ["dflt"], plugin_root := ["plugins"],
        plugin_entries := [], time_string := "2026-01-01_12-00-00" }
      [[], ["dflt"], ["custom"]]
      = Except.ok ⟨[["dflt", "TestBuild_2026-01-01_12-00-00"], [], ["dflt"], ["custom"]],
          [Call.mkdir ["dflt", "TestBuild_2026-01-01_12-00-00"]],
          some ["dflt", "TestBuild_2026-01-01_12-00-00"]⟩
    ∧ ["custom", "TestBuild_2026-01-01_12-00-00"]
        ∉ [["dflt", "TestBuild_2026-01-01_12-00-00"], ([] : FsPath), ["dflt"], ["custom"]]
    ∧ configureBuildPaths
      { clean_packages := false, clean_tests := false, action_build := false,
        action_pack := false, build_tests := true, force_clean := false,
        output_path := ["out"], test_output_path := ["custom"],
        ctx_test_build_root := ["dflt"], plugin_root := ["plugins"],
        plugin_entries := [], time_string := "2026-01-01_12-00-00" }
      [["dflt", "TestBuild_2026-01-01_12-00-00"], [], ["dflt"], ["custom"]]
      = Except.error "FileExistsError" :=
  ⟨rfl, by decide, rfl⟩

/-- Claim C2 counterexample: the claim states that on an axis with both
sentinels the token list member1, NONE, ALL resolves to every member true; on
the build-actions axis with member token build, the result has every member
false instead (the first sentinel NONE terminates resolution). -/
theorem noneThenAll_not_all_true :
    resolveBuildActions [BuildActionID.BUILD, BuildActionID.NONE, BuildActionID.ALL]
      = { sel := [(BuildActionID.BUILD, false), (BuildActionID.PACK, false)],
          valid := true, msgs := [] }
    ∧ (resolveBuildActions [BuildActionID.BUILD, BuildActionID.NONE, BuildActionID.ALL]).sel
      ≠ [(BuildActionID.BUILD, true), (BuildActionID.PACK, true)] := by
  refine ⟨by decide, by decide⟩

/-- Claim C10: the supplied unity-installation-root argument replaces the
context default only when it is an existing directory; when it is not, the
context is returned unchanged (every other field included) and no message is
emitted in either case. -/
theorem unityRoot_override_only_existing_dir :
    ∀ (fs : FS) (ctx : BuildContextModel) (argRoot : FsPath),
      (argRoot ∉ fs → applyUnityInstallRootArg fs ctx argRoot = (ctx, []))
      ∧ (argRoot ∈ fs → applyUnityInstallRootArg fs ctx argRoot
          = ({ ctx with unity_install_root := argRoot }, [])) := by
  intro fs ctx argRoot
  constructor <;> intro h <;> simp [applyUnityInstallRootArg, h]

/-- Witness for C10 at a concrete missing directory and a concrete present
directory. -/
theorem unityRoot_override_only_existing_dir_witness :
    (["gone"] : FsPath) ∉ ([[], ["unity"]] : FS)
    ∧ applyUnityInstallRootArg [[], ["unity"]]
        { unity_install_root := ["default"], build_path := ["out"],
          simulator_build := false, plugins := [] } ["gone"]
      = ({ unity_install_root := ["default"], build_path := ["out"],
           simulator_build := false, plugins := [] }, [])
    ∧ applyUnityInstallRootArg [[], ["unity"]]
        { unity_install_root := ["default"], build_path := ["out"],
          simulator_build := false, plugins := [] } ["unity"]
      = ({ unity_install_root := ["unity"], build_path := ["out"],
           simulator_build := false, plugins := [] }, []) :=
  ⟨by decide,
   (unityRoot_override_only_existing_dir [[], ["unity"]]
     { unity_install_root := ["default"], build_path := ["out"],
       simulator_build := false, plugins := [] } ["gone"]).1 (by decide),
   (unityRoot_override_only_existing_dir [[], ["unity"]]
     { unity_install_root := ["default"], build_path := ["out"],
       simulator_build := false, plugins := [] } ["unity"]).2 (by decide)⟩

/-- Claim C8: if the packages clean action is selected but the build-output
path does not exist, the clean step is a no-op: path configuration behaves
exactly as if the packages clean action were off, and when every other
flag is off as well the whole path preparation makes no collaborator call,
raises no error and leaves the filesystem unchanged. -/
theorem cleanPackages_missing_output_noop :
    ∀ (c : PathConfig) (fs0 : FS),
      c.clean_packages = true → c.output_path ∉ fs0 →
      configureBuildPaths c fs0 = configureBuildPaths { c with clean_packages := false } fs0
      ∧ (c.clean_tests = false → c.action_build = false → c.action_pack = false →
          c.build_tests = false →
          configureBuildPaths c fs0
            = Except.ok { fs := fs0, calls := [], test_build_output_path := none }) := by
  intro c fs0 h1 h2
  constructor
  · simp [configureBuildPaths, h2]
  · intro h3 h4 h5 h6
    simp [configureBuildPaths, h2, h3, h4, h5, h6]

/-- Witness for C8 at a concrete configuration whose output path is missing. -/
theorem cleanPackages_missing_output_noop_witness :
    (({ clean_packages := true, clean_tests := false, action_build := false,
        action_pack := false, build_tests := false, force_clean := false,
        output_path := ["out"], test_output_path := ["tests"],
        ctx_test_build_root := ["tests"], plugin_root := ["plugins"],
        plugin_entries := [], time_string := "t" } : PathConfig).output_path ∉ ([[]] : FS))
    ∧ configureBuildPaths
        { clean_packages := true, clean_tests := false, action_build := false,
          action_pack := false, build_tests := false, force_clean := false,
          output_path := ["out"], test_output_path := ["tests"],
          ctx_test_build_root := ["tests"], plugin_root := ["plugins"],
          plugin_entries := [], time_string := "t" } [[]]
      = Except.ok { fs := [[]], calls := [], test_build_output_path := none } :=
  ⟨by decide,
   (cleanPackages_missing_output_noop
     { clean_packages := true, clean_tests := false, action_build := false,
       action_pack := false, build_tests := false, force_clean := false,
       output_path := ["out"], test_output_path := ["tests"],
       ctx_test_build_root := ["tests"], plugin_root := ["plugins"],
       plugin_entries := [], time_string := "t" } [[]] rfl (by decide)).2 rfl rfl rfl rfl⟩

/-- Claim C4: after finalization, whenever buildTests is true the plug-in
selection has the core entry true, for every token list; in particular the
token list with only accessibility yields a selection with both accessibility
and core true, with the informational message of build.py line 210 recorded. -/
theorem buildTests_forces_core :
    (∀ tokens : List String,
      lookupSel (finalizePlugins tokens true).sel PluginID.CORE = true)
    ∧ finalizePlugins [PluginID.ACCESSIBILITY] true
      = { sel := [(PluginID.ACCESSIBILITY, true), (PluginID.CORE, true),
                  (PluginID.CORE_HAPTICS, false), (PluginID.GAME_CONTROLLER, false),
                  (PluginID.GAME_KIT, false), (PluginID.PHASE, false)],
          valid := true, msgs := forcedCoreMsgs }
    ∧ Msg.info "All plug-ins are dependent upon Apple.Core, so it must be built for tests build successfully."
        ∈ forcedCoreMsgs := by
  refine ⟨?_, by decide, by decide⟩
  intro tokens
  have hkeys : keysOf (resolvePluginsLoop tokens initPluginsState).sel
      = keysOf initPluginsState.sel :=
    axisLoop_keys PluginID.ALL none false pluginsWarn tokens initPluginsState
  have hcore : hasKey (resolvePluginsLoop tokens initPluginsState).sel PluginID.CORE = true := by
    rw [hasKey_eq_keys, hkeys]; decide
  have hcoreKey : hasKey (setKey (resolvePluginsLoop tokens initPluginsState).sel PluginID.CORE)
      PluginID.CORE = true := by
    rw [hasKey_eq_keys, keysOf_setKey, hkeys]; decide
  simp only [finalizePlugins]
  cases hC : lookupSel (resolvePluginsLoop tokens initPluginsState).sel PluginID.CORE
  · cases hv : (resolvePluginsLoop tokens initPluginsState).valid
    · simp [hC, hv]
      exact lookupSel_setAll _ true _ hcoreKey
    · simp [hC, hv]
      exact lookupSel_setKey_self _ _ hcore
  · cases hv : (resolvePluginsLoop tokens initPluginsState).valid
    · simp [hC, hv]
      exact lookupSel_setAll _ true _ hcore
    · simp [hC, hv]

/-- Claim C9: when buildTests is true and no plug-in token is valid, the
core-forcing rule fires before the no-valid-plugin default, so the final
selection is every plug-in true, and the messages are the unknown-token
warnings, then the three forced-core messages (warning, info, status), then
the default-applied warning, in that order. -/
theorem testsNoValidPlugin_allTrue_ordered_msgs :
    ∀ tokens : List String,
      (∀ t ∈ tokens, hasKey initPluginsState.sel t = false ∧ t ≠ PluginID.ALL) →
      finalizePlugins tokens true
        = { sel := [(PluginID.ACCESSIBILITY, true), (PluginID.CORE, true),
                    (PluginID.CORE_HAPTICS, true), (PluginID.GAME_CONTROLLER, true),
                    (PluginID.GAME_KIT, true), (PluginID.PHASE, true)],
            valid := false,
            msgs := (tokens.map pluginsWarn ++ forcedCoreMsgs) ++ [pluginsDefaultWarn] } := by
  intro tokens h
  have hloop : resolvePluginsLoop tokens initPluginsState
      = { initPluginsState with msgs := initPluginsState.msgs ++ tokens.map pluginsWarn } :=
    axisLoop_all_unknown PluginID.ALL none false pluginsWarn tokens initPluginsState
      (fun t ht => ⟨(h t ht).1, (h t ht).2, fun hc => Option.noConfusion hc⟩)
  simp only [finalizePlugins]
  rw [hloop]
  rfl

/-- Witness for C9 at the single unknown token bogus. -/
theorem testsNoValidPlugin_allTrue_ordered_msgs_witness :
    (∀ t ∈ ["bogus"], hasKey initPluginsState.sel t = false ∧ t ≠ PluginID.ALL)
    ∧ finalizePlugins ["bogus"] true
      = { sel := [(PluginID.ACCESSIBILITY, true), (PluginID.CORE, true),
                  (PluginID.CORE_HAPTICS, true), (PluginID.GAME_CONTROLLER, true),
                  (PluginID.GAME_KIT, true), (PluginID.PHASE, true)],
          valid := false,
          msgs := (List.map pluginsWarn ["bogus"] ++ forcedCoreMsgs) ++ [pluginsDefaultWarn] } :=
  ⟨by decide, testsNoValidPlugin_allTrue_ordered_msgs ["bogus"] (by decide)⟩

theorem resolveBuildActionsLoop_eq (ts : List String) (st : AxisState) :
    resolveBuildActionsLoop ts st
      = axisLoop BuildActionID.ALL (some BuildActionID.NONE) false buildActionsWarn ts st := rfl

theorem resolvePlatformsLoop_eq (ts : List String) (st : AxisState) :
    resolvePlatformsLoop ts st
      = axisLoop PlatformID.ALL none true platformsWarn ts st := rfl

theorem resolvePluginsLoop_eq (ts : List String) (st : AxisState) :
    resolvePluginsLoop ts st
      = axisLoop PluginID.ALL none false pluginsWarn ts st := rfl

theorem resolveCleanActionsLoop_eq (ts : List String) (st : AxisState) :
    resolveCleanActionsLoop ts st
      = axisLoop CleanActionID.ALL (some CleanActionID.NONE) false cleanActionsWarn ts st := rfl

/-- Claim C5: on every axis, an unrecognized token never aborts resolution: the
token loop just appends the non-fatal warning naming the valid options and
continues with the remaining tokens, leaving the selection and the valid flag
untouched by that token (the record update touches only the message list).
For each axis: if the tokens before the unknown token contain no terminating
sentinel, resolving pre, then the unknown token, then post from the initial
state equals resolving post from the state reached after pre with only the
warning appended.  The final conjunct exhibits the plug-in axis warning text,
which names every valid option.  The warning emission itself is a collaborator
(scripts/upi_utility, not under src) modelled from the spec as non-fatal. -/
theorem unknown_token_warns_continues :
    (∀ (pre : List String) (t : String) (post : List String),
      hasKey initBuildActionsState.sel t = false → t ≠ BuildActionID.ALL →
      t ≠ BuildActionID.NONE →
      (∀ x ∈ pre, x ≠ BuildActionID.ALL ∧ x ≠ BuildActionID.NONE) →
      resolveBuildActionsLoop (pre ++ t :: post) initBuildActionsState
        = resolveBuildActionsLoop post
            { resolveBuildActionsLoop pre initBuildActionsState with
              msgs := (resolveBuildActionsLoop pre initBuildActionsState).msgs
                ++ [buildActionsWarn t] })
    ∧ (∀ (pre : List String) (t : String) (post : List String),
      hasKey initPlatformsState.sel t = false → t ≠ PlatformID.ALL →
      (∀ x ∈ pre, x ≠ PlatformID.ALL) →
      resolvePlatformsLoop (pre ++ t :: post) initPlatformsState
        = resolvePlatformsLoop post
            { resolvePlatformsLoop pre initPlatformsState with
              msgs := (resolvePlatformsLoop pre initPlatformsState).msgs
                ++ [platformsWarn t] })
    ∧ (∀ (pre : List String) (t : String) (post : List String),
      hasKey initPluginsState.sel t = false → t ≠ PluginID.ALL →
      (∀ x ∈ pre, x ≠ PluginID.ALL) →
      resolvePluginsLoop (pre ++ t :: post) initPluginsState
        = resolvePluginsLoop post
            { resolvePluginsLoop pre initPluginsState with
              msgs := (resolvePluginsLoop pre initPluginsState).msgs
                ++ [pluginsWarn t] })
    ∧ (∀ (pre : List String) (t : String) (post : List String),
      hasKey initCleanActionsState.sel t = false → t ≠ CleanActionID.ALL →
      t ≠ CleanActionID.NONE →
      (∀ x ∈ pre, x ≠ CleanActionID.ALL ∧ x ≠ CleanActionID.NONE) →
      resolveCleanActionsLoop (pre ++ t :: post) initCleanActionsState
        = resolveCleanActionsLoop post
            { resolveCleanActionsLoop pre initCleanActionsState with
              msgs := (resolveCleanActionsLoop pre initCleanActionsState).msgs
                ++ [cleanActionsWarn t] })
    ∧ (∀ t : String, pluginsWarn t = Msg.warning ("Ignoring unknown plug-in " ++ t ++
        ". Valid options are accessibility, core, core_haptics, game_controller, game_kit, phase, or all (Default)")) := by
  refine ⟨?_, ?_, ?_, ?_, fun t => rfl⟩
  · intro pre t post hk ht hn hpre
    have hpre' : ∀ x ∈ pre, x ≠ BuildActionID.ALL
        ∧ (some BuildActionID.NONE : Option String) ≠ some x :=
      fun x hx => ⟨(hpre x hx).1,
        fun hc => (hpre x hx).2 (by injection hc with hy; exact hy.symm)⟩
    simp only [resolveBuildActionsLoop_eq]
    rw [axisLoop_append _ _ _ _ pre (t :: post) _ hpre']
    rw [axisLoop_unknown_step _ _ _ _ t post _
      (by rw [hasKey_axisLoop]; exact hk) ht
      (fun hc => hn (by injection hc with hy; exact hy.symm))]
  · intro pre t post hk ht hpre
    have hpre' : ∀ x ∈ pre, x ≠ PlatformID.ALL ∧ (none : Option String) ≠ some x :=
      fun x hx => ⟨hpre x hx, fun hc => Option.noConfusion hc⟩
    simp only [resolvePlatformsLoop_eq]
    rw [axisLoop_append _ _ _ _ pre (t :: post) _ hpre']
    rw [axisLoop_unknown_step _ _ _ _ t post _
      (by rw [hasKey_axisLoop]; exact hk) ht (fun hc => Option.noConfusion hc)]
  · intro pre t post hk ht hpre
    have hpre' : ∀ x ∈ pre, x ≠ PluginID.ALL ∧ (none : Option String) ≠ some x :=
      fun x hx => ⟨hpre x hx, fun hc => Option.noConfusion hc⟩
    simp only [resolvePluginsLoop_eq]
    rw [axisLoop_append _ _ _ _ pre (t :: post) _ hpre']
    rw [axisLoop_unknown_step _ _ _ _ t post _
      (by rw [hasKey_axisLoop]; exact hk) ht (fun hc => Option.noConfusion hc)]
  · intro pre t post hk ht hn hpre
    have hpre' : ∀ x ∈ pre, x ≠ CleanActionID.ALL
        ∧ (some CleanActionID.NONE : Option String) ≠ some x :=
      fun x hx => ⟨(hpre x hx).1,
        fun hc => (hpre x hx).2 (by injection hc with hy; exact hy.symm)⟩
    simp only [resolveCleanActionsLoop_eq]
    rw [axisLoop_append _ _ _ _ pre (t :: post) _ hpre']
    rw [axisLoop_unknown_step _ _ _ _ t post _
      (by rw [hasKey_axisLoop]; exact hk) ht
      (fun hc => hn (by injection hc with hy; exact hy.symm))]

/-- Witness for C5: each axis loop instantiated at a concrete unknown token
between two known tokens. -/
theorem unknown_token_warns_continues_witness :
    resolveBuildActionsLoop (["build"] ++ "junk" :: ["pack"]) initBuildActionsState
      = resolveBuildActionsLoop ["pack"]
          { resolveBuildActionsLoop ["build"] initBuildActionsState with
            msgs := (resolveBuildActionsLoop ["build"] initBuildActionsState).msgs
              ++ [buildActionsWarn "junk"] }
    ∧ resolvePlatformsLoop (["ios"] ++ "junk" :: ["tvos"]) initPlatformsState
      = resolvePlatformsLoop ["tvos"]
          { resolvePlatformsLoop ["ios"] initPlatformsState with
            msgs := (resolvePlatformsLoop ["ios"] initPlatformsState).msgs
              ++ [platformsWarn "junk"] }
    ∧ resolvePluginsLoop (["accessibility"] ++ "junk" :: ["phase"]) initPluginsState
      = resolvePluginsLoop ["phase"]
          { resolvePluginsLoop ["accessibility"] initPluginsState with
            msgs := (resolvePluginsLoop ["accessibility"] initPluginsState).msgs
              ++ [pluginsWarn "junk"] }
    ∧ resolveCleanActionsLoop (["native"] ++ "junk" :: ["tests"]) initCleanActionsState
      = resolveCleanActionsLoop ["tests"]
          { resolveCleanActionsLoop ["native"] initCleanActionsState with
            msgs := (resolveCleanActionsLoop ["native"] initCleanActionsState).msgs
              ++ [cleanActionsWarn "junk"] } :=
  ⟨unknown_token_warns_continues.1 ["build"] "junk" ["pack"]
     (by decide) (by decide) (by decide) (by decide),
   unknown_token_warns_continues.2.1 ["ios"] "junk" ["tvos"]
     (by decide) (by decide) (by decide),
   unknown_token_warns_continues.2.2.1 ["accessibility"] "junk" ["phase"]
     (by decide) (by decide) (by decide),
   unknown_token_warns_continues.2.2.2.1 ["native"] "junk" ["tests"]
     (by decide) (by decide) (by decide) (by decide)⟩

/-- Claim C6: on every axis, a token list containing the all sentinel before
any contradicting sentinel resolves with every member true and the axis marked
valid, and every token after the all sentinel is ignored (the result equals
resolving the list truncated right after the sentinel).  The hypothesis only
restricts the tokens before the sentinel: on the two axes with a none sentinel
they must not be a sentinel, on the other two they must not be the all
sentinel; member and unknown tokens before it are arbitrary. -/
theorem all_sentinel_all_true :
    (∀ pre post : List String,
      (∀ t ∈ pre, t ≠ BuildActionID.ALL ∧ t ≠ BuildActionID.NONE) →
      resolveBuildActions (pre ++ BuildActionID.ALL :: post)
        = resolveBuildActions (pre ++ [BuildActionID.ALL])
      ∧ (resolveBuildActions (pre ++ BuildActionID.ALL :: post)).sel
        = [(BuildActionID.BUILD, true), (BuildActionID.PACK, true)]
      ∧ (resolveBuildActions (pre ++ BuildActionID.ALL :: post)).valid = true)
    ∧ (∀ pre post : List String,
      (∀ t ∈ pre, t ≠ PlatformID.ALL) →
      resolvePlatforms (pre ++ PlatformID.ALL :: post)
        = resolvePlatforms (pre ++ [PlatformID.ALL])
      ∧ (resolvePlatforms (pre ++ PlatformID.ALL :: post)).sel
        = [(PlatformID.IOS, true), (PlatformID.MACOS, true), (PlatformID.TVOS, true)]
      ∧ (resolvePlatforms (pre ++ PlatformID.ALL :: post)).valid = true)
    ∧ (∀ (pre post : List String) (bt : Bool),
      (∀ t ∈ pre, t ≠ PluginID.ALL) →
      finalizePlugins (pre ++ PluginID.ALL :: post) bt
        = finalizePlugins (pre ++ [PluginID.ALL]) bt
      ∧ (finalizePlugins (pre ++ PluginID.ALL :: post) bt).sel
        = [(PluginID.ACCESSIBILITY, true), (PluginID.CORE, true),
           (PluginID.CORE_HAPTICS, true), (PluginID.GAME_CONTROLLER, true),
           (PluginID.GAME_KIT, true), (PluginID.PHASE, true)]
      ∧ (finalizePlugins (pre ++ PluginID.ALL :: post) bt).valid = true)
    ∧ (∀ pre post : List String,
      (∀ t ∈ pre, t ≠ CleanActionID.ALL ∧ t ≠ CleanActionID.NONE) →
      resolveCleanActions (pre ++ CleanActionID.ALL :: post)
        = resolveCleanActions (pre ++ [CleanActionID.ALL])
      ∧ (resolveCleanActions (pre ++ CleanActionID.ALL :: post)).sel
        = [(CleanActionID.NATIVE, true), (CleanActionID.PACKAGES, true),
           (CleanActionID.TESTS, true)]
      ∧ (resolveCleanActions (pre ++ CleanActionID.ALL :: post)).valid = true) := by
  refine ⟨?_, ?_, ?_, ?_⟩
  · intro pre post hpre
    have hpre' : ∀ t ∈ pre, t ≠ BuildActionID.ALL
        ∧ (some BuildActionID.NONE : Option String) ≠ some t :=
      fun t ht => ⟨(hpre t ht).1,
        fun hc => (hpre t ht).2 (by injection hc with hy; exact hy.symm)⟩
    have e1 := axisLoop_sentinel_all BuildActionID.ALL (some BuildActionID.NONE) false
      buildActionsWarn pre post initBuildActionsState hpre' rfl
    have e2 := axisLoop_sentinel_all BuildActionID.ALL (some BuildActionID.NONE) false
      buildActionsWarn pre [] initBuildActionsState hpre' rfl
    have r1 := resolveBuildActions_of_valid _ _ e1 rfl
    have r2 := resolveBuildActions_of_valid _ _ e2 rfl
    exact ⟨r1.trans r2.symm, by rw [r1]; rfl, by rw [r1]⟩
  · intro pre post hpre
    have hpre' : ∀ t ∈ pre, t ≠ PlatformID.ALL ∧ (none : Option String) ≠ some t :=
      fun t ht => ⟨hpre t ht, fun hc => Option.noConfusion hc⟩
    have e1 := axisLoop_sentinel_all PlatformID.ALL none true
      platformsWarn pre post initPlatformsState hpre' rfl
    have e2 := axisLoop_sentinel_all PlatformID.ALL none true
      platformsWarn pre [] initPlatformsState hpre' rfl
    have r1 := resolvePlatforms_of_valid _ _ e1 rfl
    have r2 := resolvePlatforms_of_valid _ _ e2 rfl
    exact ⟨r1.trans r2.symm, by rw [r1]; rfl, by rw [r1]⟩
  · intro pre post bt hpre
    have hpre' : ∀ t ∈ pre, t ≠ PluginID.ALL ∧ (none : Option String) ≠ some t :=
      fun t ht => ⟨hpre t ht, fun hc => Option.noConfusion hc⟩
    have e1 := axisLoop_sentinel_all PluginID.ALL none false
      pluginsWarn pre post initPluginsState hpre' rfl
    have e2 := axisLoop_sentinel_all PluginID.ALL none false
      pluginsWarn pre [] initPluginsState hpre' rfl
    have r1 := finalizePlugins_of_valid_core _ bt _ e1 rfl rfl
    have r2 := finalizePlugins_of_valid_core _ bt _ e2 rfl rfl
    exact ⟨r1.trans r2.symm, by rw [r1]; rfl, by rw [r1]⟩
  · intro pre post hpre
    have hpre' : ∀ t ∈ pre, t ≠ CleanActionID.ALL
        ∧ (some CleanActionID.NONE : Option String) ≠ some t :=
      fun t ht => ⟨(hpre t ht).1,
        fun hc => (hpre t ht).2 (by injection hc with hy; exact hy.symm)⟩
    have e1 := axisLoop_sentinel_all CleanActionID.ALL (some CleanActionID.NONE) false
      cleanActionsWarn pre post initCleanActionsState hpre' rfl
    have e2 := axisLoop_sentinel_all CleanActionID.ALL (some CleanActionID.NONE) false
      cleanActionsWarn pre [] initCleanActionsState hpre' rfl
    have r1 := resolveCleanActions_of_valid _ _ e1 rfl
    have r2 := resolveCleanActions_of_valid _ _ e2 rfl
    exact ⟨r1.trans r2.symm, by rw [r1]; rfl, by rw [r1]⟩

/-- Witness for C6: each axis at a concrete token list with member and unknown
tokens before the all sentinel and discarded tokens after it. -/
theorem all_sentinel_all_true_witness :
    (resolveBuildActions (["build", "junk"] ++ BuildActionID.ALL :: ["none"])).sel
      = [(BuildActionID.BUILD, true), (BuildActionID.PACK, true)]
    ∧ (resolvePlatforms (["ios"] ++ PlatformID.ALL :: ["junk"])).sel
      = [(PlatformID.IOS, true), (PlatformID.MACOS, true), (PlatformID.TVOS, true)]
    ∧ (finalizePlugins (["junk"] ++ PluginID.ALL :: ["core"]) false).sel
      = [(PluginID.ACCESSIBILITY, true), (PluginID.CORE, true),
         (PluginID.CORE_HAPTICS, true), (PluginID.GAME_CONTROLLER, true),
         (PluginID.GAME_KIT, true), (PluginID.PHASE, true)]
    ∧ (resolveCleanActions ((["native"] : List String) ++ CleanActionID.ALL :: ["none"])).sel
      = [(CleanActionID.NATIVE, true), (CleanActionID.PACKAGES, true),
         (CleanActionID.TESTS, true)] :=
  ⟨(all_sentinel_all_true.1 ["build", "junk"] ["none"] (by decide)).2.1,
   (all_sentinel_all_true.2.1 ["ios"] ["junk"] (by decide)).2.1,
   (all_sentinel_all_true.2.2.1 ["junk"] ["core"] false (by decide)).2.1,
   (all_sentinel_all_true.2.2.2 ["native"] ["none"] (by decide)).2.1⟩

/-- Claim C2 amended: on the axes with both sentinels (build-actions and
clean-actions), the token list member1, NONE, ALL resolves with every member
false (not true as the claim stated: the first sentinel NONE terminates the
loop), NONE, member1 also resolves with every member false, and in general the
first sentinel in the list wins outright: with no sentinel before it, a none
sentinel yields every member false, the axis valid, and every later token
ignored (the result equals resolving the list truncated after the sentinel);
the all sentinel behaves symmetrically with every member true. -/
theorem first_sentinel_wins :
    resolveBuildActions [BuildActionID.BUILD, BuildActionID.NONE, BuildActionID.ALL]
      = { sel := [(BuildActionID.BUILD, false), (BuildActionID.PACK, false)],
          valid := true, msgs := [] }
    ∧ resolveBuildActions [BuildActionID.NONE, BuildActionID.BUILD]
      = { sel := [(BuildActionID.BUILD, false), (BuildActionID.PACK, false)],
          valid := true, msgs := [] }
    ∧ resolveCleanActions [CleanActionID.NATIVE, CleanActionID.NONE, CleanActionID.ALL]
      = { sel := [(CleanActionID.NATIVE, false), (CleanActionID.PACKAGES, false),
                  (CleanActionID.TESTS, false)], valid := true, msgs := [] }
    ∧ resolveCleanActions [CleanActionID.NONE, CleanActionID.NATIVE]
      = { sel := [(CleanActionID.NATIVE, false), (CleanActionID.PACKAGES, false),
                  (CleanActionID.TESTS, false)], valid := true, msgs := [] }
    ∧ (∀ pre post : List String,
      (∀ t ∈ pre, t ≠ BuildActionID.ALL ∧ t ≠ BuildActionID.NONE) →
      resolveBuildActions (pre ++ BuildActionID.NONE :: post)
        = resolveBuildActions (pre ++ [BuildActionID.NONE])
      ∧ (resolveBuildActions (pre ++ BuildActionID.NONE :: post)).sel
        = [(BuildActionID.BUILD, false), (BuildActionID.PACK, false)]
      ∧ (resolveBuildActions (pre ++ BuildActionID.NONE :: post)).valid = true
      ∧ resolveBuildActions (pre ++ BuildActionID.ALL :: post)
        = resolveBuildActions (pre ++ [BuildActionID.ALL])
      ∧ (resolveBuildActions (pre ++ BuildActionID.ALL :: post)).sel
        = [(BuildActionID.BUILD, true), (BuildActionID.PACK, true)])
    ∧ (∀ pre post : List String,
      (∀ t ∈ pre, t ≠ CleanActionID.ALL ∧ t ≠ CleanActionID.NONE) →
      resolveCleanActions (pre ++ CleanActionID.NONE :: post)
        = resolveCleanActions (pre ++ [CleanActionID.NONE])
      ∧ (resolveCleanActions (pre ++ CleanActionID.NONE :: post)).sel
        = [(CleanActionID.NATIVE, false), (CleanActionID.PACKAGES, false),
           (CleanActionID.TESTS, false)]
      ∧ (resolveCleanActions (pre ++ CleanActionID.NONE :: post)).valid = true
      ∧ resolveCleanActions (pre ++ CleanActionID.ALL :: post)
        = resolveCleanActions (pre ++ [CleanActionID.ALL])
      ∧ (resolveCleanActions (pre ++ CleanActionID.ALL :: post)).sel
        = [(CleanActionID.NATIVE, true), (CleanActionID.PACKAGES, true),
           (CleanActionID.TESTS, true)]) := by
  refine ⟨by decide, by decide, by decide, by decide, ?_, ?_⟩
  · intro pre post hpre
    have hpre' : ∀ t ∈ pre, t ≠ BuildActionID.ALL
        ∧ (some BuildActionID.NONE : Option String) ≠ some t :=
      fun t ht => ⟨(hpre t ht).1,
        fun hc => (hpre t ht).2 (by injection hc with hy; exact hy.symm)⟩
    have n1 := axisLoop_sentinel_none BuildActionID.ALL false buildActionsWarn
      BuildActionID.NONE pre post initBuildActionsState hpre' rfl (by decide)
    have n2 := axisLoop_sentinel_none BuildActionID.ALL false buildActionsWarn
      BuildActionID.NONE pre [] initBuildActionsState hpre' rfl (by decide)
    have rn1 := resolveBuildActions_of_valid _ _ n1 rfl
    have rn2 := resolveBuildActions_of_valid _ _ n2 rfl
    have a1 := axisLoop_sentinel_all BuildActionID.ALL (some BuildActionID.NONE) false
      buildActionsWarn pre post initBuildActionsState hpre' rfl
    have a2 := axisLoop_sentinel_all BuildActionID.ALL (some BuildActionID.NONE) false
      buildActionsWarn pre [] initBuildActionsState hpre' rfl
    have ra1 := resolveBuildActions_of_valid _ _ a1 rfl
    have ra2 := resolveBuildActions_of_valid _ _ a2 rfl
    exact ⟨rn1.trans rn2.symm, by rw [rn1]; rfl, by rw [rn1],
      ra1.trans ra2.symm, by rw [ra1]; rfl⟩
  · intro pre post hpre
    have hpre' : ∀ t ∈ pre, t ≠ CleanActionID.ALL
        ∧ (some CleanActionID.NONE : Option String) ≠ some t :=
      fun t ht => ⟨(hpre t ht).1,
        fun hc => (hpre t ht).2 (by injection hc with hy; exact hy.symm)⟩
    have n1 := axisLoop_sentinel_none CleanActionID.ALL false cleanActionsWarn
      CleanActionID.NONE pre post initCleanActionsState hpre' rfl (by decide)
    have n2 := axisLoop_sentinel_none CleanActionID.ALL false cleanActionsWarn
      CleanActionID.NONE pre [] initCleanActionsState hpre' rfl (by decide)
    have rn1 := resolveCleanActions_of_valid _ _ n1 rfl
    have rn2 := resolveCleanActions_of_valid _ _ n2 rfl
    have a1 := axisLoop_sentinel_all CleanActionID.ALL (some CleanActionID.NONE) false
      cleanActionsWarn pre post initCleanActionsState hpre' rfl
    have a2 := axisLoop_sentinel_all CleanActionID.ALL (some CleanActionID.NONE) false
      cleanActionsWarn pre [] initCleanActionsState hpre' rfl
    have ra1 := resolveCleanActions_of_valid _ _ a1 rfl
    have ra2 := resolveCleanActions_of_valid _ _ a2 rfl
    exact ⟨rn1.trans rn2.symm, by rw [rn1]; rfl, by rw [rn1],
      ra1.trans ra2.symm, by rw [ra1]; rfl⟩

/-- Witness for C2 at a concrete member token before the none sentinel with
discarded tokens after it, on both axes. -/
theorem first_sentinel_wins_witness :
    (resolveBuildActions (["pack"] ++ BuildActionID.NONE :: ["build", "all"])).sel
      = [(BuildActionID.BUILD, false), (BuildActionID.PACK, false)]
    ∧ (resolveCleanActions (["tests"] ++ CleanActionID.NONE :: ["all"])).sel
      = [(CleanActionID.NATIVE, false), (CleanActionID.PACKAGES, false),
         (CleanActionID.TESTS, false)] :=
  ⟨(first_sentinel_wins.2.2.2.2.1 ["pack"] ["build", "all"] (by decide)).2.1,
   (first_sentinel_wins.2.2.2.2.2 ["tests"] ["all"] (by decide)).2.1⟩

/-- Claim C7: for every directory listing of the plug-in root, the computed
plug-in processing order has the directory named Apple.Core first whenever it
is present, every other plug-in directory keeps its relative scan order, and a
phase run with the build action enabled invokes the plug-in manager exactly
once per entry of that order, in that order (the processing calls of the trace
are precisely the ordered entries). -/
theorem apple_core_first :
    ∀ (entries : List (String × Bool)) (action_pack build_tests skip_codesign : Bool)
      (ident : String),
      ("Apple.Core" ∈ dirNames entries → (orderPlugins entries).head? = some "Apple.Core")
      ∧ (orderPlugins entries).filter (fun n => n != "Apple.Core")
        = (dirNames entries).filter (fun n => n != "Apple.Core")
      ∧ processPluginCalls (runPhases true action_pack build_tests skip_codesign ident entries)
        = (orderPlugins entries).map Call.processNativeUnityPlugin := by
  intro entries pk bt sk ident
  refine ⟨fun h => orderPluginsLoop_head_core entries [] h, ?_, ?_⟩
  · have h := orderPluginsLoop_filter entries []
    simpa [orderPlugins] using h
  · have hcs : List.filter isProcessCall
        (if sk then ([] : List Call)
         else if ident.length > 0 then [] else [Call.promptForCodesignIdentity]) = [] := by
      split_ifs <;> rfl
    cases bt <;> cases pk <;>
      simp [runPhases, processPluginCalls, List.filter_append, filter_isProcess_map,
        isProcessCall, hcs]

/-- Witness for C7 at a concrete listing with a file entry and Apple.Core in
the middle of the scan order. -/
theorem apple_core_first_witness :
    ("Apple.Core" ∈ dirNames [("Apple.GameKit", true), ("README.md", false),
        ("Apple.Core", true), ("Apple.PHASE", true)])
    ∧ (orderPlugins [("Apple.GameKit", true), ("README.md", false),
        ("Apple.Core", true), ("Apple.PHASE", true)]).head? = some "Apple.Core"
    ∧ (orderPlugins [("Apple.GameKit", true), ("README.md", false),
        ("Apple.Core", true), ("Apple.PHASE", true)]).filter (fun n => n != "Apple.Core")
      = (dirNames [("Apple.GameKit", true), ("README.md", false),
          ("Apple.Core", true), ("Apple.PHASE", true)]).filter (fun n => n != "Apple.Core")
    ∧ processPluginCalls (runPhases true false false false ""
        [("Apple.GameKit", true), ("README.md", false), ("Apple.Core", true),
         ("Apple.PHASE", true)])
      = (orderPlugins [("Apple.GameKit", true), ("README.md", false),
          ("Apple.Core", true), ("Apple.PHASE", true)]).map Call.processNativeUnityPlugin :=
  ⟨by decide,
   (apple_core_first [("Apple.GameKit", true), ("README.md", false),
      ("Apple.Core", true), ("Apple.PHASE", true)] false false false "").1 (by decide),
   (apple_core_first [("Apple.GameKit", true), ("README.md", false),
      ("Apple.Core", true), ("Apple.PHASE", true)] false false false "").2.1,
   (apple_core_first [("Apple.GameKit", true), ("README.md", false),
      ("Apple.Core", true), ("Apple.PHASE", true)] false false false "").2.2⟩
